import Mathlib

/-!
Verification of `eval-lib/databases/influx/influx_db.py` (class `InfluxDBWrapper`).

The Python module is a thin wrapper around an InfluxDB client: a constructor
that forwards five connection parameters to the client constructor, a static
seconds-to-nanoseconds conversion, and `get_procstat_result`, which renders an
InfluxQL aggregation query, submits it, and returns the first row of the
result set or `None` (also on any caught exception, after printing exactly one
diagnostic line).

The embedding below models the external store as a function from the query
string to either a list of rows or an error (a raised exception), and makes
the observable effects of `get_procstat_result` explicit: the returned value,
the diagnostic lines printed, and the query strings submitted to the store.
-/

namespace InfluxDB

/-- A result row: a Python `dict` from column name to numeric value.
Float values are represented exactly as rationals (the code only passes them
through; it performs no arithmetic on them). -/
abbrev Row := List (String × Rat)

/-- The connection parameters held by the third-party `InfluxDBClient`,
in the positional order of its constructor. -/
structure InfluxDBClient where
  host : String
  port : Int
  user : String
  password : String
  database : String
deriving Repr, DecidableEq

/-- The wrapper object: `self.client` is the constructed client. -/
structure InfluxDBWrapper where
  client : InfluxDBClient
deriving Repr, DecidableEq

/-- Model of `InfluxDBWrapper.__init__`: forwards the five parameters, in order, to the
client constructor `m` (abstracted so the argument order is observable). -/
def init (m : String → Int → String → String → String → InfluxDBClient)
    (host : String) (port : Int) (user : String) (password : String)
    (database : String) : InfluxDBWrapper :=
  ⟨m host port user password database⟩

/-- Model of `InfluxDBWrapper.__init__` called with no arguments: every parameter takes
its declared default value. -/
def initNoArgs (m : String → Int → String → String → String → InfluxDBClient) :
    InfluxDBWrapper :=
  init m "127.0.0.1" 8086 "root" "" ""

/-- Model of `InfluxDBWrapper._convert_to_nanoseconds`: `timestamp * 1_000_000_000`.
Python integers are arbitrary precision, hence `Int`. -/
def _convert_to_nanoseconds (timestamp : Int) : Int :=
  timestamp * 1000000000

/-- Model of the f-string `filter_condition = f"pattern = '{process_name}'"`. -/
def filter_condition (process_name : String) : String :=
  "pattern = '" ++ process_name ++ "'"

/-- The literal text of the query f-string before `{filter_condition}`. -/
def qHead : String :=
  "\n                SELECT \n                    percentile(sum_cpu_usage, 90) AS max_cpu_usage, \n                    percentile(sum_memory_usage, 90) AS max_mem_usage\n                FROM (\n                    SELECT \n                        SUM(cpu_usage) AS sum_cpu_usage, \n                        SUM(memory_usage) AS sum_memory_usage \n                    FROM procstat \n                    WHERE "

/-- The literal text between `{filter_condition}` and `{start_time_ns}`. -/
def qMid1 : String :=
  " \n                    AND time >= "

/-- The literal text between `{start_time_ns}` and `{end_time_ns}`. -/
def qMid2 : String :=
  " \n                    AND time <= "

/-- The literal text after `{end_time_ns}`. -/
def qTail : String :=
  " \n                    GROUP BY time(10s)\n                )\n            "

/-- Model of the f-string `sql_query`, a function of the already-converted nanosecond
bounds and the process name (Python renders the `Int` interpolations with
`str`, which agrees with `toString : Int → String`). -/
def sql_query (process_name : String) (start_time_ns end_time_ns : Int) :
    String :=
  qHead ++ filter_condition process_name ++ qMid1 ++ toString start_time_ns
    ++ qMid2 ++ toString end_time_ns ++ qTail

/-- The external store: `self.client.query` followed by `result.get_points()`,
as one function from the query text to either the row list or a raised
exception (its message). -/
abbrev Store := String → Except String (List Row)

/-- The observable outcome of one `get_procstat_result` call: the returned
value, the lines printed to stdout, and the queries submitted to the store. -/
structure CallResult where
  result : Option Row
  logs : List String
  submitted : List String
deriving Repr, DecidableEq

/-- Model of `InfluxDBWrapper.get_procstat_result`: convert the bounds, render the
query, submit it; return the first row if any rows came back, `None` on an
empty result set, and `None` after printing one `[ERROR]` line if the store
raised. -/
def get_procstat_result (store : Store) (process_name : String)
    (start_time end_time : Int) : CallResult :=
  let start_time_ns := _convert_to_nanoseconds start_time
  let end_time_ns := _convert_to_nanoseconds end_time
  let q := sql_query process_name start_time_ns end_time_ns
  match store q with
  | Except.ok procstat =>
      { result := procstat.head?, logs := [], submitted := [q] }
  | Except.error e =>
      { result := none,
        logs := ["[ERROR] Failed to query InfluxDB: " ++ e],
        submitted := [q] }

/-- Boolean test that the first list is an initial segment of the second. -/
def leadMatch : List Char → List Char → Bool
  | [], _ => true
  | _ :: _, [] => false
  | c :: cs, d :: ds => c == d && leadMatch cs ds

/-- Boolean test that the first list occurs contiguously inside the second. -/
def hasSub (needle : List Char) : List Char → Bool
  | [] => needle.isEmpty
  | d :: ds => leadMatch needle (d :: ds) || hasSub needle ds

/-- Proposition that `needle` occurs contiguously inside `hay` (as character
sequences). -/
def strContains (needle hay : String) : Prop :=
  ∃ a b, a ++ needle.data ++ b = hay.data

theorem leadMatch_sound :
    ∀ {n h : List Char}, leadMatch n h = true → ∃ b, n ++ b = h := by
  intro n
  induction n with
  | nil => exact fun {h} _ => ⟨h, rfl⟩
  | cons c cs ih =>
    intro h hm
    match h with
    | [] => simp [leadMatch] at hm
    | d :: ds =>
      simp only [leadMatch, Bool.and_eq_true, beq_iff_eq] at hm
      obtain ⟨rfl, htail⟩ := hm
      obtain ⟨b, hb⟩ := ih htail
      exact ⟨b, by simp [hb]⟩

theorem hasSub_sound :
    ∀ {n h : List Char}, hasSub n h = true → ∃ a b, a ++ n ++ b = h := by
  intro n h
  induction h with
  | nil =>
    intro hm
    simp only [hasSub, List.isEmpty_iff] at hm
    exact ⟨[], [], by simp [hm]⟩
  | cons d ds ih =>
    intro hm
    simp only [hasSub, Bool.or_eq_true] at hm
    rcases hm with hm | hm
    · obtain ⟨b, hb⟩ := leadMatch_sound hm
      exact ⟨[], b, by simp [hb]⟩
    · obtain ⟨a, b, hab⟩ := ih hm
      exact ⟨d :: a, b, by simp [hab]⟩

/-- Occurrence inside the literal `qHead` lifts to occurrence in the whole
rendered query. -/
theorem strContains_of_qHead (x : String) (n : String) (s e : Int)
    (h : hasSub x.data qHead.data = true) :
    strContains x (sql_query n s e) := by
  obtain ⟨a, b, hab⟩ := hasSub_sound h
  refine ⟨a, b ++ ((filter_condition n).data ++ qMid1.data ++ (toString s).data
    ++ qMid2.data ++ (toString e).data ++ qTail.data), ?_⟩
  simp [sql_query, String.data_append, ← hab]

/-- Occurrence inside the literal `qTail` lifts to occurrence in the whole
rendered query. -/
theorem strContains_of_qTail (x : String) (n : String) (s e : Int)
    (h : hasSub x.data qTail.data = true) :
    strContains x (sql_query n s e) := by
  obtain ⟨a, b, hab⟩ := hasSub_sound h
  refine ⟨qHead.data ++ (filter_condition n).data ++ qMid1.data
    ++ (toString s).data ++ qMid2.data ++ (toString e).data ++ a, b, ?_⟩
  simp [sql_query, String.data_append, ← hab]

/-- The rendered query contains the pattern-equality clause with the process
name interpolated verbatim. -/
theorem contains_pattern (n : String) (s e : Int) :
    strContains ("pattern = '" ++ n ++ "'") (sql_query n s e) := by
  refine ⟨qHead.data, qMid1.data ++ (toString s).data ++ qMid2.data
    ++ (toString e).data ++ qTail.data, ?_⟩
  simp [sql_query, filter_condition, String.data_append]

theorem qMid1_eq : qMid1 = " \n                    AND " ++ "time >= " := by
  decide

theorem qMid2_eq : qMid2 = " \n                    AND " ++ "time <= " := by
  decide

/-- The rendered query contains the inclusive lower time bound. -/
theorem contains_time_ge (n : String) (s e : Int) :
    strContains ("time >= " ++ toString s) (sql_query n s e) := by
  refine ⟨qHead.data ++ (filter_condition n).data
      ++ (" \n                    AND " : String).data,
    qMid2.data ++ (toString e).data ++ qTail.data, ?_⟩
  simp [sql_query, qMid1_eq, String.data_append]

/-- The rendered query contains the inclusive upper time bound. -/
theorem contains_time_le (n : String) (s e : Int) :
    strContains ("time <= " ++ toString e) (sql_query n s e) := by
  refine ⟨qHead.data ++ (filter_condition n).data ++ qMid1.data
      ++ (toString s).data ++ (" \n                    AND " : String).data,
    qTail.data, ?_⟩
  simp [sql_query, qMid2_eq, String.data_append]

/-- Both branches of `get_procstat_result` submit exactly the rendered query. -/
theorem submitted_eq (st : Store) (n : String) (s e : Int) :
    (get_procstat_result st n s e).submitted =
      [sql_query n (_convert_to_nanoseconds s) (_convert_to_nanoseconds e)] := by
  cases h : st (sql_query n (_convert_to_nanoseconds s) (_convert_to_nanoseconds e))
    <;> simp [get_procstat_result, h]

set_option maxRecDepth 20000 in
/-- C1: for every process name and both time bounds, `get_procstat_result`
submits exactly one query string; it contains the literal process name inside
a `pattern = '...'` equality clause, the nanosecond-converted bounds in the
inclusive conditions `time >= start_ns` and `time <= end_ns`, a
`GROUP BY time(10s)` clause on the inner stage, and an outer stage applying
`percentile(..., 90)` to the per-bucket `SUM` aggregates of `cpu_usage` and
`memory_usage` from the `procstat` measurement. -/
theorem sql_query_shape (st : Store) (n : String) (s e : Int) :
    ∃ q, (get_procstat_result st n s e).submitted = [q] ∧
      q = sql_query n (_convert_to_nanoseconds s) (_convert_to_nanoseconds e) ∧
      strContains ("pattern = '" ++ n ++ "'") q ∧
      strContains ("time >= " ++ toString (_convert_to_nanoseconds s)) q ∧
      strContains ("time <= " ++ toString (_convert_to_nanoseconds e)) q ∧
      strContains "GROUP BY time(10s)" q ∧
      strContains "percentile(sum_cpu_usage, 90) AS max_cpu_usage" q ∧
      strContains "percentile(sum_memory_usage, 90) AS max_mem_usage" q ∧
      strContains "SUM(cpu_usage) AS sum_cpu_usage" q ∧
      strContains "SUM(memory_usage) AS sum_memory_usage" q ∧
      strContains "FROM procstat" q := by
  exact ⟨_, submitted_eq st n s e, rfl,
    contains_pattern n _ _, contains_time_ge n _ _, contains_time_le n _ _,
    strContains_of_qTail _ n _ _ (by decide),
    strContains_of_qHead _ n _ _ (by decide),
    strContains_of_qHead _ n _ _ (by decide),
    strContains_of_qHead _ n _ _ (by decide),
    strContains_of_qHead _ n _ _ (by decide),
    strContains_of_qHead _ n _ _ (by decide)⟩

/-- C2: whenever the store raises (modelled as `Except.error`),
`get_procstat_result` returns `none`, prints exactly one diagnostic line, and
(being a total function into `CallResult`) propagates no exception. -/
theorem error_degrades_to_none (st : Store) (n : String) (s e : Int)
    (msg : String)
    (h : st (sql_query n (_convert_to_nanoseconds s) (_convert_to_nanoseconds e))
      = Except.error msg) :
    (get_procstat_result st n s e).result = none ∧
      (get_procstat_result st n s e).logs
        = ["[ERROR] Failed to query InfluxDB: " ++ msg] := by
  simp [get_procstat_result, h]

/-- Witness for C2 at a concrete always-raising store. -/
theorem error_degrades_to_none_wit :
    (get_procstat_result (fun _ => Except.error "boom") "nginx" 0 1).result
        = none ∧
      (get_procstat_result (fun _ => Except.error "boom") "nginx" 0 1).logs
        = ["[ERROR] Failed to query InfluxDB: " ++ "boom"] :=
  error_degrades_to_none (fun _ => Except.error "boom") "nginx" 0 1 "boom" rfl

/-- C3: whenever the store returns an empty result set, `get_procstat_result`
returns `none` without printing anything (and, being total, does not raise). -/
theorem empty_result_none (st : Store) (n : String) (s e : Int)
    (h : st (sql_query n (_convert_to_nanoseconds s) (_convert_to_nanoseconds e))
      = Except.ok []) :
    (get_procstat_result st n s e).result = none ∧
      (get_procstat_result st n s e).logs = [] := by
  simp [get_procstat_result, h]

/-- Witness for C3 at a concrete empty-result store. -/
theorem empty_result_none_wit :
    (get_procstat_result (fun _ => Except.ok []) "nginx" 0 1).result = none ∧
      (get_procstat_result (fun _ => Except.ok []) "nginx" 0 1).logs = [] :=
  empty_result_none (fun _ => Except.ok []) "nginx" 0 1 rfl

/-- C4: whenever the store returns at least one row, `get_procstat_result`
returns exactly the first row; in particular, when that row is the mapping
with keys `max_cpu_usage` and `max_mem_usage` (numeric values), the function
returns exactly that mapping. -/
theorem first_row_returned (st : Store) (n : String) (s e : Int) (r : Row)
    (rs : List Row)
    (h : st (sql_query n (_convert_to_nanoseconds s) (_convert_to_nanoseconds e))
      = Except.ok (r :: rs)) :
    (get_procstat_result st n s e).result = some r ∧
      ∀ c m : Rat, r = [("max_cpu_usage", c), ("max_mem_usage", m)] →
        (get_procstat_result st n s e).result
          = some [("max_cpu_usage", c), ("max_mem_usage", m)] := by
  constructor
  · simp [get_procstat_result, h]
  · intro c m hr
    subst hr
    simp [get_procstat_result, h]

/-- Witness for C4 at a concrete one-row store. -/
theorem first_row_returned_wit :
    (get_procstat_result
        (fun _ => Except.ok [[("max_cpu_usage", (10 : Rat)), ("max_mem_usage", (10 : Rat))]])
        "nginx" 0 1).result
      = some [("max_cpu_usage", (10 : Rat)), ("max_mem_usage", (10 : Rat))] :=
  (first_row_returned
    (fun _ => Except.ok [[("max_cpu_usage", (10 : Rat)), ("max_mem_usage", (10 : Rat))]])
    "nginx" 0 1 [("max_cpu_usage", (10 : Rat)), ("max_mem_usage", (10 : Rat))] [] rfl).1

/-- C5: the seconds-to-nanoseconds conversion is exactly multiplication by
10^9 on arbitrary-precision integers; no rounding or truncation occurs. -/
theorem convert_exact (t : Int) :
    _convert_to_nanoseconds t = t * 10 ^ 9 := by
  norm_num [_convert_to_nanoseconds]

/-- C6: end-to-end scenario with `process_name = "nginx"`,
`start_time = 1000`, `end_time = 2000`: the submitted query contains
`pattern = 'nginx'`, `time >= 1000000000000`, and `time <= 2000000000000`, and
a store answering with the single row
`{max_cpu_usage: 12.5, max_mem_usage: 33.1}` makes the function return exactly
that row. -/
theorem nginx_end_to_end :
    (get_procstat_result
        (fun _ => Except.ok
          [[("max_cpu_usage", (12.5 : Rat)), ("max_mem_usage", (33.1 : Rat))]])
        "nginx" 1000 2000).submitted
      = [sql_query "nginx" (_convert_to_nanoseconds 1000)
          (_convert_to_nanoseconds 2000)] ∧
    strContains "pattern = 'nginx'"
      (sql_query "nginx" (_convert_to_nanoseconds 1000)
        (_convert_to_nanoseconds 2000)) ∧
    strContains "time >= 1000000000000"
      (sql_query "nginx" (_convert_to_nanoseconds 1000)
        (_convert_to_nanoseconds 2000)) ∧
    strContains "time <= 2000000000000"
      (sql_query "nginx" (_convert_to_nanoseconds 1000)
        (_convert_to_nanoseconds 2000)) ∧
    (get_procstat_result
        (fun _ => Except.ok
          [[("max_cpu_usage", (12.5 : Rat)), ("max_mem_usage", (33.1 : Rat))]])
        "nginx" 1000 2000).result
      = some [("max_cpu_usage", (12.5 : Rat)), ("max_mem_usage", (33.1 : Rat))] := by
  have h1 : ("pattern = '" ++ "nginx" ++ "'") = "pattern = 'nginx'" := by decide
  have h2 : ("time >= " ++ toString (_convert_to_nanoseconds 1000))
      = "time >= 1000000000000" := by decide
  have h3 : ("time <= " ++ toString (_convert_to_nanoseconds 2000))
      = "time <= 2000000000000" := by decide
  exact ⟨submitted_eq _ "nginx" 1000 2000,
    h1 ▸ contains_pattern "nginx" _ _,
    h2 ▸ contains_time_ge "nginx" _ _,
    h3 ▸ contains_time_le "nginx" _ _,
    rfl⟩

/-- C7: the constructor called with no arguments passes exactly the defaults
host `127.0.0.1`, port `8086`, user `root`, empty password, and empty
database, in that positional order, to the client constructor. -/
theorem init_defaults
    (m : String → Int → String → String → String → InfluxDBClient) :
    initNoArgs m = ⟨m "127.0.0.1" 8086 "root" "" ""⟩ := rfl

/-- C8: the seconds-to-nanoseconds conversion is monotone, so an ordered time
window in seconds stays ordered in nanoseconds. -/
theorem convert_monotone (s e : Int) (h : s ≤ e) :
    _convert_to_nanoseconds s ≤ _convert_to_nanoseconds e := by
  unfold _convert_to_nanoseconds
  exact mul_le_mul_of_nonneg_right h (by norm_num)

/-- Witness for C8 at the concrete window from 1 s to 2 s. -/
theorem convert_monotone_wit :
    (1 : Int) ≤ 2 ∧ _convert_to_nanoseconds 1 ≤ _convert_to_nanoseconds 2 :=
  ⟨by decide, convert_monotone 1 2 (by decide)⟩

/-- C9: query construction is deterministic: the submitted query string is a
function of the three inputs only, so two calls with equal inputs submit
character-for-character identical strings whatever the stores do. -/
theorem query_deterministic (c d : Store) (n : String) (s e : Int) :
    (get_procstat_result c n s e).submitted
        = (get_procstat_result d n s e).submitted ∧
      (get_procstat_result c n s e).submitted
        = [sql_query n (_convert_to_nanoseconds s) (_convert_to_nanoseconds e)] := by
  refine ⟨?_, submitted_eq c n s e⟩
  rw [submitted_eq c n s e, submitted_eq d n s e]

/-- C10: no input validation: for every process name (the empty string
included) and every pair of bounds (`start_time > end_time` included), the
call still submits exactly one query with the three values interpolated
verbatim, instead of rejecting the call. -/
theorem no_input_validation (st : Store) (n : String) (s e : Int) :
    (get_procstat_result st n s e).submitted
        = [sql_query n (_convert_to_nanoseconds s) (_convert_to_nanoseconds e)] ∧
      strContains ("pattern = '" ++ n ++ "'")
        (sql_query n (_convert_to_nanoseconds s) (_convert_to_nanoseconds e)) ∧
      strContains ("time >= " ++ toString (_convert_to_nanoseconds s))
        (sql_query n (_convert_to_nanoseconds s) (_convert_to_nanoseconds e)) ∧
      strContains ("time <= " ++ toString (_convert_to_nanoseconds e))
        (sql_query n (_convert_to_nanoseconds s) (_convert_to_nanoseconds e)) :=
  ⟨submitted_eq st n s e, contains_pattern n _ _,
    contains_time_ge n _ _, contains_time_le n _ _⟩

end InfluxDB
